import Mathlib

/-!
Verification of the RisingWave pipeline SQL generator.

This file gives a shallow embedding of the generator's data model and
operations (src/generator.py, src/connectors/postgres.py,
src/connectors/iceberg.py) and proves properties of the embedding.

Configuration values are YAML-derived nested mappings; we model them with
`Val` (strings, integers, booleans, nested dicts).  Python dicts are
modelled as insertion-ordered association lists: lookup returns the first
match and assignment replaces the value in place (keeping its position) or
appends a new pair at the end, exactly as Python's insertion-ordered dicts
behave.  Python exceptions are modelled with `Except String`; in-place
mutation during validation is modelled by explicit state passing (the
validator returns the possibly-mutated configuration alongside its
result).  Floating-point scalars never occur in the validated paths the
claims touch, so the scalar universe is strings, integers and booleans.
-/

/-- A YAML-ish configuration value: scalar or nested mapping. -/
inductive Val where
  | str  : String → Val
  | int  : Int → Val
  | bool : Bool → Val
  | dict : List (String × Val) → Val

/-- Python dict, modelled as an insertion-ordered association list. -/
abbrev Dict := List (String × Val)

/-- Lookup `d[k]`: first matching key (Python dicts have unique keys). -/
def dget : Dict → String → Option Val
  | [], _ => none
  | (k', v) :: rest, k => if k' = k then some v else dget rest k

/-- Membership test `k in d`. -/
def hasKey (d : Dict) (k : String) : Bool := (dget d k).isSome

/-- Assignment `d[k] = v`: replace in place (keeping the key's position) or
append, like Python's insertion-ordered dicts. -/
def dset : Dict → String → Val → Dict
  | [], k, v => [(k, v)]
  | (k', v') :: rest, k, v =>
      if k' = k then (k, v) :: rest else (k', v') :: dset rest k v

/-- Lookup `d[k]` where the key is known to be present; defaults to an empty
string on the (guarded-against) missing case. -/
def dgetD (d : Dict) (k : String) : Val := (dget d k).getD (.str "")

/-- Python's `str.split('.')` over the character list. -/
def pySplitAux : List Char → List Char → List (List Char)
  | [], acc => [acc.reverse]
  | c :: rest, acc =>
      if c = '.' then acc.reverse :: pySplitAux rest [] else pySplitAux rest (c :: acc)

/-- Python's `s.split('.')`. -/
def pySplitDot (s : String) : List String :=
  (pySplitAux s.data []).map (fun l => String.mk l)

/-- Python's `s.split('.')[-1]` (the code's pervasive trailing-segment
extraction). -/
def lastSeg (s : String) : String := (pySplitDot s).getLastD ""

/-- Python's `s.split('.')[0]` (first segment of a dotted key). -/
def firstSeg (s : String) : String := (pySplitDot s).headD ""

/-- Python's `'.'.join(s.split('.')[:-1])` — everything before the last segment. -/
def dbNameOf (s : String) : String :=
  String.intercalate "." ((pySplitDot s).dropLast)

/-- Python's `str(v)` for the scalar cases, with dict repr for
completeness (`str` of a bool is `True`/`False`). -/
def pyReprEntries : List (String × Val) → String
  | [] => ""
  | (k, v) :: rest =>
      let vs := match v with
        | .str s => "'" ++ s ++ "'"
        | .int n => toString n
        | .bool b => if b then "True" else "False"
        | .dict d => "\x7b" ++ pyReprEntries d ++ "\x7d"
      "'" ++ k ++ "': " ++ vs ++ (if rest.isEmpty then "" else ", " ++ pyReprEntries rest)

/-- Python's `str(v)` / f-string rendering of a value. -/
def pyStr : Val → String
  | .str s => s
  | .int n => toString n
  | .bool b => if b then "True" else "False"
  | .dict d => "\x7b" ++ pyReprEntries d ++ "\x7d"

/-- Jinja2 rendering of `{{ expr }}`: an undefined value renders empty. -/
def jrender : Option Val → String
  | none => ""
  | some v => pyStr v

/-- Jinja2 / Python attribute access on a dict value (`x.name`); missing
values stay undefined. -/
def jattr : Option Val → String → Option Val
  | some (.dict d), k => dget d k
  | _, _ => none

/-- Python truthiness, as used by the Jinja `{%- if ... %}` guards. -/
def truthy : Option Val → Bool
  | none => false
  | some (.str s) => !s.isEmpty
  | some (.int n) => n != 0
  | some (.bool b) => b
  | some (.dict d) => !d.isEmpty

/-- Concatenation of a list of strings (rendering of a Jinja `for` loop
whose body has already been produced per element). -/
def joinStr : List String → String
  | [] => ""
  | s :: rest => s ++ joinStr rest

/-- Substring test (used to state facts about rendered SQL text). -/
def startsWithL : List Char → List Char → Bool
  | _, [] => true
  | [], _ :: _ => false
  | c :: cs, p :: ps => c = p && startsWithL cs ps

/-- Boolean substring search over the underlying character lists. -/
def hasSub : List Char → List Char → Bool
  | [], pat => pat.isEmpty
  | s@(_ :: rest), pat => startsWithL s pat || hasSub rest pat

/-- True when `pat` occurs somewhere inside `s`. -/
def strHas (s pat : String) : Bool := hasSub s.data pat.data

/-!
## PostgreSQL CDC connector (src/connectors/postgres.py)

`PG_SOURCE_TEMPLATE` and `PG_TABLE_TEMPLATE` are Jinja2 templates; the
renderers below reproduce their output text, including the leading
newline of the triple-quoted template body and the whitespace produced by
the `{%- ... %}` stripping markers.
-/

/-- Rendering of `PG_SOURCE_TEMPLATE` applied to a source configuration. -/
def pg_create_source (source : Dict) : String :=
  "\nCREATE SOURCE postgres_" ++ jrender (jattr (dget source "database") "name")
  ++ "_source\nWITH (\n    connector = 'postgres-cdc',\n    hostname = '"
  ++ jrender (dget source "hostname") ++ "',\n    port = '" ++ jrender (dget source "port")
  ++ "',\n    username = '" ++ jrender (dget source "username") ++ "',\n    password = '"
  ++ jrender (dget source "password") ++ "',\n    database.name = '"
  ++ jrender (jattr (dget source "database") "name") ++ "'"
  ++ (if truthy (jattr (dget source "slot") "name") then
        ",\n    slot.name = '" ++ jrender (jattr (dget source "slot") "name") ++ "'"
      else "")
  ++ (if truthy (jattr (dget source "publication") "name") then
        ",\n    publication.name = '" ++ jrender (jattr (dget source "publication") "name") ++ "'"
      else "")
  ++ (if truthy (jattr (jattr (dget source "publication") "create") "enable") then
        ",\n    publication.create.enable = '"
        ++ jrender (jattr (jattr (dget source "publication") "create") "enable") ++ "'"
      else "")
  ++ (if truthy (jattr (dget source "schema") "name") then
        ",\n    schema.name = '" ++ jrender (jattr (dget source "schema") "name") ++ "'"
      else "")
  ++ "\n)\nFORMAT PLAIN ENCODE JSON;"

/-- The string value of a route field (defined when the field is a
string, which the table/sink rendering theorems hypothesise). -/
def routeStr (route : Dict) (k : String) : String :=
  match dget route k with
  | some (.str s) => s
  | _ => ""

/-- Rendering of `PG_TABLE_TEMPLATE` applied to source and route. -/
def pg_table_view (source route : Dict) : String :=
  "\nCREATE TABLE " ++ lastSeg (routeStr route "source_table")
  ++ " (*)\nFROM postgres_" ++ jrender (jattr (dget source "database") "name")
  ++ "_source\nTABLE '" ++ routeStr route "source_table" ++ "';"

/-- Model of `PostgreSQLConnector.create_table`.  Jinja calls
`route.source_table.split('.')`, which raises when the field is missing
(undefined) or not a string; those cases surface as errors. -/
def pg_create_table (source route : Dict) : Except String String :=
  match dget route "source_table" with
  | some (.str _) => .ok (pg_table_view source route)
  | some _ => .error "TypeError: route source_table has no attribute 'split'"
  | none => .error "UndefinedError: 'route' has no attribute 'source_table'"

/-- Python `isinstance(v, (int, str))` — `bool` is a subclass of `int`. -/
def isIntOrStrInst : Val → Bool
  | .int _ => true
  | .str _ => true
  | .bool _ => true
  | .dict _ => false

/-- The tail of `PostgreSQLConnector.validate_config`: every rule checked
after the `database` normalization point.  These rules never mutate the
configuration. -/
def postgres_validate_rest (config : Dict) : Except String Unit := do
  (match dget config "slot" with
   | none => Except.ok ()
   | some (.dict d) =>
       if hasKey d "name" then Except.ok ()
       else Except.error "Missing required slot.name field when slot is specified"
   | some _ => Except.error "Slot configuration must be a dictionary")
  (match dget config "publication" with
   | none => Except.ok ()
   | some (.dict d) => do
       (match dget d "name" with
        | some (.str _) => Except.ok ()
        | some _ => Except.error "Publication name must be a string"
        | none => Except.ok ())
       (match dget d "create" with
        | none => Except.ok ()
        | some (.dict c) =>
            if hasKey c "enable" then Except.ok ()
            else Except.error "Missing required publication.create.enable field when publication.create is specified"
        | some _ => Except.error "Publication create configuration must be a dictionary")
   | some _ => Except.error "Publication configuration must be a dictionary")
  (match dget config "schema" with
   | none => Except.ok ()
   | some (.dict d) =>
       if hasKey d "name" then Except.ok ()
       else Except.error "Missing required schema.name field when schema is specified"
   | some _ => Except.error "Schema configuration must be a dictionary")
  (if isIntOrStrInst (dgetD config "port") then Except.ok ()
   else Except.error "Port must be an integer or string")
  (match dget config "table" with
   | none => Except.ok ()
   | some (.str s) =>
       if s.data.contains '.' then Except.ok ()
       else Except.error "Table name should be in format 'schema.table'"
   | some _ => Except.error "TypeError: argument of type 'int' is not iterable")

/-- Model of `PostgreSQLConnector.validate_config`.  The Python function mutates
its argument in place when a scalar `database` is normalized to
`{name: <string>}`; we model this by returning the (possibly mutated)
configuration together with the result, so the state at the point an
exception is raised is observable. -/
def postgres_validate_config (config : Dict) :
    Except String Unit × Dict :=
  match ["connector", "hostname", "port", "username", "password", "database"].find?
          (fun f => !hasKey config f) with
  | some f => (.error ("Missing required PostgreSQL source field: " ++ f), config)
  | none =>
    match dget config "database" with
    | some (.dict d) =>
        if hasKey d "name" then (postgres_validate_rest config, config)
        else (.error "Database configuration must have a 'name' field", config)
    | some v =>
        let config' := dset config "database" (.dict [("name", v)])
        (postgres_validate_rest config', config')
    | none => (.error "KeyError: 'database'", config)

/-!
## Iceberg connector (src/connectors/iceberg.py)
-/

/-- The `self.valid_connection_props` set of `IcebergConnector`. -/
def valid_connection_props : List String := ["catalog", "s3", "gcs", "azblob", "warehouse"]

/-- Key joining of the recursive flatteners:
`new_key = f"{parent_key}.{k}" if parent_key else k`. -/
def joinKey (parent k : String) : String :=
  if parent = "" then k else parent ++ "." ++ k

/-- The `quote_if_string` helper of `create_connection`: quote strings, pass every
other value through Python's f-string rendering. -/
def quoteConn : Val → String
  | .str s => "'" ++ s ++ "'"
  | v => pyStr v

/-- The `flatten_dict` helper of `create_connection`: depth-first walk appending one
`key.path = value` line per non-dict leaf. -/
def flatten_dict_props : List (String × Val) → String → List String
  | [], _ => []
  | (k, v) :: rest, parent =>
      (match v with
       | .dict d => flatten_dict_props d (joinKey parent k)
       | _ => [joinKey parent k ++ " = " ++ quoteConn v]) ++ flatten_dict_props rest parent

/-- The `properties` list built by `IcebergConnector.create_connection`:
only the connection-relevant top-level keys are unfolded; dict values are
flattened recursively with the top-level key as path root. -/
def connection_props : Dict → List String
  | [] => []
  | (key, value) :: rest =>
      (if valid_connection_props.contains key then
         match value with
         | .dict d => flatten_dict_props d key
         | _ => [key ++ " = " ++ quoteConn value]
       else []) ++ connection_props rest

/-- Rendering of `ICEBERG_CONNECTION_TEMPLATE`. -/
def renderIcebergConnection (connection_name : String) (props : List String) : String :=
  "\nCREATE CONNECTION " ++ connection_name ++ "\nWITH (\n    type = 'iceberg'"
  ++ joinStr (props.map (fun p => ",\n    " ++ p)) ++ "\n);"

/-- Model of `IcebergConnector.create_connection`. -/
def iceberg_create_connection (sink_config : Dict) (connection_name : String) : String :=
  renderIcebergConnection connection_name (connection_props sink_config)

/-- The `quote_if_string` helper of `create_sink`: strings quoted, booleans quoted
lowercase, everything else via `str`. -/
def quoteSink : Val → String
  | .str s => "'" ++ s ++ "'"
  | .bool b => "'" ++ (if b then "true" else "false") ++ "'"
  | v => pyStr v

/-- The `flatten_dict_to_map` helper of `create_sink`: depth-first walk writing one
`key.path -> value` entry per non-dict leaf into the target map. -/
def flatten_dict_to_map : List (String × Val) → String → Dict → Dict
  | [], _, t => t
  | (k, v) :: rest, parent, t =>
      match v with
      | .dict d => flatten_dict_to_map rest parent (flatten_dict_to_map d (joinKey parent k) t)
      | _ => flatten_dict_to_map rest parent (dset t (joinKey parent k) v)

/-- The `process_config` helper of `create_sink`: top-level dict values are flattened
with their key as path root, scalars written directly. -/
def process_config : Dict → Dict → Dict
  | [], t => t
  | (key, value) :: rest, t =>
      process_config rest
        (match value with
         | .dict d => flatten_dict_to_map d key t
         | _ => dset t key value)

/-- The `flattened_props` map of `create_sink`: sink config then route
config, so route entries overwrite sink entries of the same key. -/
def sinkPropPairs (sink_config route : Dict) : Dict :=
  process_config route (process_config sink_config [])

/-- The keys `create_sink` skips when rendering generic properties:
template-handled fields, route structural fields, the `connection` key,
and any key whose first dotted segment is a connection property. -/
def sinkSkipKey (k : String) : Bool :=
  ["connector", "database.name", "table.name", "source_table", "sink_table",
   "connection"].contains k
  || valid_connection_props.contains (firstSeg k)

/-- The generic `properties` list of `create_sink`. -/
def sinkProps (sink_config route : Dict) : List String :=
  (sinkPropPairs sink_config route).filterMap
    (fun kv => if sinkSkipKey kv.1 then none else some (kv.1 ++ " = " ++ quoteSink kv.2))

/-- Rendering of `ICEBERG_SINK_TEMPLATE`; the `connection` clause is
emitted only for a truthy (present, non-empty) connection name. -/
def renderIcebergSink (sink_name from_table database_name table_name : String)
    (connection_name : Option String) (props : List String) : String :=
  "\nCREATE SINK " ++ sink_name ++ "_sink\nFROM " ++ from_table
  ++ "\nWITH (\n    connector = 'iceberg',\n    database.name = '" ++ database_name
  ++ "',\n    table.name = '" ++ table_name ++ "'"
  ++ (match connection_name with
      | some c => if c = "" then "" else ",\n    connection = " ++ c
      | none => "")
  ++ joinStr (props.map (fun p => ",\n    " ++ p)) ++ "\n);"

/-- The statement `create_sink` renders once the route's table fields are
known to be strings. -/
def iceberg_sink_view (sink_config route : Dict) (connection_name : Option String) : String :=
  renderIcebergSink
    (lastSeg (routeStr route "sink_table"))
    (lastSeg (routeStr route "source_table"))
    (dbNameOf (routeStr route "sink_table"))
    (lastSeg (routeStr route "sink_table"))
    connection_name
    (sinkProps sink_config route)

/-- Model of `IcebergConnector.create_sink`.  The `source_config` parameter is
accepted and ignored, as in the source.  `route["sink_table"]` is read
first, so its `KeyError` takes priority. -/
def iceberg_create_sink (_source_config sink_config route : Dict)
    (connection_name : Option String) : Except String String :=
  match dget route "sink_table" with
  | some (.str _) =>
      (match dget route "source_table" with
       | some (.str _) => .ok (iceberg_sink_view sink_config route connection_name)
       | some _ => .error "AttributeError: route source_table has no attribute 'split'"
       | none => .error "KeyError: 'source_table'")
  | some _ => .error "AttributeError: route sink_table has no attribute 'split'"
  | none => .error "KeyError: 'sink_table'"

/-- Required-field loop of `IcebergConnector.validate_config`
(`required_fields = ["connector", "catalog"]`). -/
def iceberg_required_check (c : Dict) : Except String Unit :=
  match ["connector", "catalog"].find? (fun f => !hasKey c f) with
  | some f => .error ("Missing required Iceberg sink field: " ++ f)
  | none => .ok ()

/-- Forbidden-field loop of `IcebergConnector.validate_config`
(`forbidden_fields = ["database", "database.name"]`). -/
def iceberg_forbidden_check (c : Dict) : Except String Unit :=
  match ["database", "database.name"].find? (fun f => hasKey c f) with
  | some f =>
      .error ("Field '" ++ f ++ "' should not be specified in Iceberg sink config. "
              ++ "Database and table names are derived from the route configuration.")
  | none => .ok ()

/-- Step `catalog = config["catalog"]` plus the dictionary-shape check. -/
def iceberg_catalog_check (c : Dict) : Except String Dict :=
  match dget c "catalog" with
  | some (.dict d) => .ok d
  | some _ => .error "Catalog configuration must be a dictionary"
  | none => .error "KeyError: 'catalog'"

/-- At-least-one-storage-configuration check. -/
def iceberg_storage_presence_check (c : Dict) (catalog : Dict) : Except String Unit :=
  let has_storage_config := hasKey catalog "rest" || hasKey catalog "jdbc"
  let has_root_storage := hasKey c "s3" || hasKey c "gcs" || hasKey c "azblob"
  if !has_storage_config && !has_root_storage && !hasKey c "warehouse" then
    .error ("Missing required configuration: either warehouse path, "
            ++ "storage configuration (s3, gcs, azblob), or catalog configuration (rest, jdbc)")
  else .ok ()

/-- Warehouse block validation. -/
def iceberg_warehouse_check (c : Dict) : Except String Unit :=
  match dget c "warehouse" with
  | none => .ok ()
  | some (.dict d) =>
      if hasKey d "path" then .ok ()
      else .error "Warehouse configuration must have a 'path' field"
  | some _ => .error "Warehouse configuration must be a dictionary"

/-- S3 block validation
(`required_s3_fields = ["endpoint", "region", "access", "secret"]`). -/
def iceberg_s3_check (c : Dict) : Except String Unit :=
  match dget c "s3" with
  | none => .ok ()
  | some (.dict d) =>
      (match ["endpoint", "region", "access", "secret"].find? (fun f => !hasKey d f) with
       | some f => .error ("Missing required S3 field: " ++ f)
       | none => .ok ())
  | some _ => .error "S3 configuration must be a dictionary"

/-- GCS block validation (requires `credential`). -/
def iceberg_gcs_check (c : Dict) : Except String Unit :=
  match dget c "gcs" with
  | none => .ok ()
  | some (.dict d) =>
      if hasKey d "credential" then .ok ()
      else .error "Missing required GCS field: credential"
  | some _ => .error "GCS configuration must be a dictionary"

/-- Azure Blob block validation
(`required_azblob_fields = ["account_name", "account_key", "endpoint_url"]`). -/
def iceberg_azblob_check (c : Dict) : Except String Unit :=
  match dget c "azblob" with
  | none => .ok ()
  | some (.dict d) =>
      (match ["account_name", "account_key", "endpoint_url"].find? (fun f => !hasKey d f) with
       | some f => .error ("Missing required Azure Blob field: " ++ f)
       | none => .ok ())
  | some _ => .error "Azure Blob configuration must be a dictionary"

/-- REST catalog validation (requires `credential` and `token`). -/
def iceberg_rest_check (catalog : Dict) : Except String Unit :=
  match dget catalog "rest" with
  | none => .ok ()
  | some (.dict d) =>
      (match ["credential", "token"].find? (fun f => !hasKey d f) with
       | some f => .error ("Missing required REST field: " ++ f)
       | none => .ok ())
  | some _ => .error "REST configuration must be a dictionary"

/-- JDBC catalog validation (requires `user` and `password`). -/
def iceberg_jdbc_check (catalog : Dict) : Except String Unit :=
  match dget catalog "jdbc" with
  | none => .ok ()
  | some (.dict d) =>
      (match ["user", "password"].find? (fun f => !hasKey d f) with
       | some f => .error ("Missing required JDBC field: " ++ f)
       | none => .ok ())
  | some _ => .error "JDBC configuration must be a dictionary"

/-- Python `isinstance(v, (int, float))`; `bool` is a subclass of `int`,
and the embedding's numeric scalars are integers. -/
def isNumberInst : Val → Bool
  | .int _ => true
  | .bool _ => true
  | _ => false

/-- Python `isinstance(v, int)` (`bool` included, as in Python). -/
def isIntInst : Val → Bool
  | .int _ => true
  | .bool _ => true
  | _ => false

/-- Python `isinstance(v, str)`. -/
def isStrInst : Val → Bool
  | .str _ => true
  | _ => false

/-- Optional sink-option scalar validations. -/
def iceberg_sink_options_check (c : Dict) : Except String Unit :=
  if (match dget c "commit_checkpoint_interval" with
      | some v => !isNumberInst v
      | none => false) then
    .error "commit_checkpoint_interval must be a number"
  else if (match dget c "commit_retry_num" with
           | some v => !isIntInst v
           | none => false) then
    .error "commit_retry_num must be an integer"
  else if (match dget c "create_table_if_not_exists" with
           | some v => !isStrInst v
           | none => false) then
    .error "create_table_if_not_exists must be a string"
  else .ok ()

/-- Model of `IcebergConnector.validate_config`: the source's checks in source
order.  This validator never mutates the configuration. -/
def iceberg_validate_config (c : Dict) : Except String Unit := do
  iceberg_required_check c
  iceberg_forbidden_check c
  let catalog ← iceberg_catalog_check c
  iceberg_storage_presence_check c catalog
  iceberg_warehouse_check c
  iceberg_s3_check c
  iceberg_gcs_check c
  iceberg_azblob_check c
  iceberg_rest_check catalog
  iceberg_jdbc_check catalog
  iceberg_sink_options_check c

/-!
## Generator (src/generator.py)
-/

/-- The connector classes of the static registry. -/
inductive ConnectorKind where
  | postgres
  | iceberg
deriving DecidableEq

/-- The registry `CONNECTOR_REGISTRY`, in source order. -/
def CONNECTOR_REGISTRY : List (String × ConnectorKind) :=
  [("postgres", .postgres), ("iceberg", .iceberg)]

/-- The `", ".join(CONNECTOR_REGISTRY.keys())` part of the lookup error. -/
def supportedTypesMsg : String :=
  String.intercalate ", " (CONNECTOR_REGISTRY.map Prod.fst)

/-- Model of `get_connector_instance`: resolve the `connector` discriminator
against the registry; unknown or non-string discriminators fail with a
message naming the offending type and listing the supported ones. -/
def get_connector_instance (connector_type : Val) : Except String ConnectorKind :=
  match connector_type with
  | .str s =>
      (match CONNECTOR_REGISTRY.lookup s with
       | some k => .ok k
       | none => .error ("Unsupported connector type: " ++ s
                         ++ ". Supported types: " ++ supportedTypesMsg))
  | v => .error ("Unsupported connector type: " ++ pyStr v
                 ++ ". Supported types: " ++ supportedTypesMsg)

/-- Capability `supports_connection`: `False` for PostgreSQL CDC, `True` for Iceberg. -/
def supports_connection : ConnectorKind → Bool
  | .postgres => false
  | .iceberg => true

/-- Capability check `hasattr(connector, "create_table")`: only the PostgreSQL connector
defines `create_table`. -/
def has_create_table : ConnectorKind → Bool
  | .postgres => true
  | .iceberg => false

/-- Dispatch of `validate_config`.  The postgres validator may mutate the
configuration (returned as the second component); the iceberg validator
leaves it untouched. -/
def validate_config (k : ConnectorKind) (c : Dict) : Except String Unit × Dict :=
  match k with
  | .postgres => postgres_validate_config c
  | .iceberg => (iceberg_validate_config c, c)

/-- Dispatch of `create_source`; the Iceberg connector has no such method,
so calling it raises. -/
def create_source (k : ConnectorKind) (c : Dict) : Except String String :=
  match k with
  | .postgres => .ok (pg_create_source c)
  | .iceberg => .error "AttributeError: 'IcebergConnector' object has no attribute 'create_source'"

/-- Dispatch of `create_table` (guarded by `has_create_table` at the call
site). -/
def create_table (k : ConnectorKind) (source route : Dict) : Except String String :=
  match k with
  | .postgres => pg_create_table source route
  | .iceberg => .error "AttributeError: 'IcebergConnector' object has no attribute 'create_table'"

/-- Dispatch of `create_connection` (only called when
`supports_connection` holds). -/
def create_connection (k : ConnectorKind) (c : Dict) (name : String) : Except String String :=
  match k with
  | .postgres => .error "AttributeError: 'PostgreSQLConnector' object has no attribute 'create_connection'"
  | .iceberg => .ok (iceberg_create_connection c name)

/-- Dispatch of `create_sink`.  `generate_sql` passes three positional
arguments, so the optional `connection_name` parameter stays `None`. -/
def create_sink (k : ConnectorKind) (source sink route : Dict) : Except String String :=
  match k with
  | .postgres => .error "AttributeError: 'PostgreSQLConnector' object has no attribute 'create_sink'"
  | .iceberg => iceberg_create_sink source sink route none

/-- Model of `validate_route`: both table keys must be present (values are not
inspected). -/
def validate_route (route : Dict) : Except String Unit :=
  if !hasKey route "source_table" then .error "Route must contain 'source_table'"
  else if !hasKey route "sink_table" then .error "Route must contain 'sink_table'"
  else .ok ()

/-- The `for route in routes: validate_route(route)` loop. -/
def validate_routes : List Dict → Except String Unit
  | [] => .ok ()
  | r :: rs => do
      validate_route r
      validate_routes rs

/-- The table-creation loop of `generate_sql`: one statement per route,
in route order, when the source connector exposes `create_table`. -/
def gen_table_stmts (k : ConnectorKind) (source : Dict) : List Dict → Except String (List String)
  | [] => .ok []
  | r :: rs =>
      if has_create_table k then do
        let t ← create_table k source r
        let ts ← gen_table_stmts k source rs
        .ok (t :: ts)
      else gen_table_stmts k source rs

/-- The sink-creation loop of `generate_sql`: one statement per route, in
route order; when the sink connector supports connections, the sink
config is copied and given a `connection_name` entry before rendering. -/
def gen_sink_stmts (k : ConnectorKind) (source sink : Dict) (connName : String) :
    List Dict → Except String (List String)
  | [] => .ok []
  | r :: rs => do
      let s ← (if supports_connection k then
                 create_sink k source (dset sink "connection_name" (.str connName)) r
               else create_sink k source sink r)
      let ss ← gen_sink_stmts k source sink connName rs
      .ok (s :: ss)

/-- The top-level job configuration (`source`, `sink`, `route`). -/
structure JobConfig where
  source : Dict
  sink : Dict
  route : List Dict

/-- Model of `generate_sql`: resolve connectors, validate configurations (with the
postgres validator's in-place normalization threaded through), validate
routes, then emit statements in source order and join them with
newlines. -/
def generate_sql (config : JobConfig) : Except String String :=
  let source := config.source
  let sink := config.sink
  let routes := config.route
  if !hasKey source "connector" then
    .error "Source configuration must include a 'connector' field"
  else if !hasKey sink "connector" then
    .error "Sink configuration must include a 'connector' field"
  else match get_connector_instance (dgetD source "connector") with
  | .error e => .error e
  | .ok source_connector =>
    match get_connector_instance (dgetD sink "connector") with
    | .error e => .error e
    | .ok sink_connector =>
      match validate_config source_connector source with
      | (.error e, _) => .error e
      | (.ok _, source1) =>
        match validate_config sink_connector sink with
        | (.error e, _) => .error e
        | (.ok _, sink1) =>
          if routes.isEmpty then .error "Route configuration is required"
          else match validate_routes routes with
          | .error e => .error e
          | .ok _ =>
            match (if supports_connection source_connector then
                     (create_connection source_connector source1
                        (pyStr (dgetD source1 "connector") ++ "_connection")).map (fun c => [c])
                   else .ok []) with
            | .error e => .error e
            | .ok conn1 =>
              match create_source source_connector source1 with
              | .error e => .error e
              | .ok source_sql =>
                match gen_table_stmts source_connector source1 routes with
                | .error e => .error e
                | .ok tables =>
                  match (if supports_connection sink_connector then
                           (create_connection sink_connector sink1
                              (pyStr (dgetD sink1 "connector") ++ "_connection")).map (fun c => [c])
                         else .ok []) with
                  | .error e => .error e
                  | .ok conn2 =>
                    match gen_sink_stmts sink_connector source1 sink1
                            (pyStr (dgetD sink1 "connector") ++ "_connection") routes with
                    | .error e => .error e
                    | .ok sinks =>
                      .ok (String.intercalate "\n"
                            (conn1 ++ [source_sql] ++ tables ++ conn2 ++ sinks))


/-!
## Concrete example configurations

Used by the concrete evaluations below (witnesses and counterexamples).
-/

/-- Scenario-A-style postgres source configuration. -/
def c1src : Dict :=
  [("connector", .str "postgres"), ("hostname", .str "h"), ("port", .int 5432),
   ("username", .str "u"), ("password", .str "p"),
   ("database", .dict [("name", .str "db1")])]

/-- Scenario-A-style iceberg sink configuration (REST catalog). -/
def c1sink : Dict :=
  [("connector", .str "iceberg"),
   ("catalog", .dict [("rest", .dict [("credential", .str "cr"), ("token", .str "tk")])])]

/-- First route of the two-route job. -/
def c1r1 : Dict := [("source_table", .str "public.orders"), ("sink_table", .str "lake.orders")]

/-- Second route of the two-route job. -/
def c1r2 : Dict := [("source_table", .str "public.users"), ("sink_table", .str "lake.users")]

/-- A two-route postgres-to-iceberg job. -/
def c1cfg : JobConfig := ⟨c1src, c1sink, [c1r1, c1r2]⟩

/-- Sink configuration that also sets the generic property
`force_append_only`. -/
def c2sink : Dict :=
  [("connector", .str "iceberg"),
   ("catalog", .dict [("rest", .dict [("credential", .str "cr"), ("token", .str "tk")])]),
   ("force_append_only", .str "false")]

/-- Route that overrides `force_append_only`. -/
def c2route : Dict :=
  [("source_table", .str "public.orders"), ("sink_table", .str "lake.orders"),
   ("force_append_only", .str "true")]

/-- Minimal valid iceberg sink configuration. -/
def c3sink : Dict :=
  [("connector", .str "iceberg"),
   ("catalog", .dict [("rest", .dict [("credential", .str "cr"), ("token", .str "tk")])])]

/-- Simple route. -/
def c3route : Dict := [("source_table", .str "public.orders"), ("sink_table", .str "lake.orders")]

/-- Sink configuration whose catalog has a nested `rest` block with
`oauth2_server_uri` and `scope` fields. -/
def c4sink : Dict :=
  [("connector", .str "iceberg"),
   ("catalog", .dict
     [("rest", .dict
       [("oauth2_server_uri", .str "https://auth"), ("scope", .str "cat"),
        ("credential", .str "cr"), ("token", .str "tk")])])]

/-- Iceberg sink whose s3 block uses the spec's hyphenated field names
(`access-key`/`secret-key`) instead of the code's `access`/`secret`. -/
def c5sink : Dict :=
  [("connector", .str "iceberg"),
   ("catalog", .dict [("rest", .dict [("credential", .str "cr"), ("token", .str "tk")])]),
   ("s3", .dict [("endpoint", .str "e"), ("region", .str "r"),
                 ("access-key", .str "a"), ("secret-key", .str "s")])]

/-- Iceberg sink whose s3/gcs/azblob blocks carry the code's required
field names. -/
def c5ok : Dict :=
  [("connector", .str "iceberg"),
   ("catalog", .dict [("rest", .dict [("credential", .str "cr"), ("token", .str "tk")])]),
   ("s3", .dict [("endpoint", .str "e"), ("region", .str "r"),
                 ("access", .str "a"), ("secret", .str "s")]),
   ("gcs", .dict [("credential", .str "g")]),
   ("azblob", .dict [("account_name", .str "an"), ("account_key", .str "ak"),
                     ("endpoint_url", .str "eu")])]

/-- Route whose table fields are present but empty strings. -/
def c6route : Dict := [("source_table", .str ""), ("sink_table", .str "")]

/-- A full job whose only route has empty-string table fields. -/
def c6cfg : JobConfig := ⟨c1src, c1sink, [c6route]⟩

/-- The same job with an empty route list. -/
def c6emptycfg : JobConfig := ⟨c1src, c1sink, []⟩

/-- Iceberg sink with all required fields plus the forbidden `database`. -/
def c7sink : Dict :=
  [("connector", .str "iceberg"),
   ("catalog", .dict [("rest", .dict [("credential", .str "cr"), ("token", .str "tk")])]),
   ("database", .str "lake")]

/-- Iceberg sink with the forbidden dotted `database.name` key. -/
def c7sinkDotted : Dict :=
  [("connector", .str "iceberg"),
   ("catalog", .dict [("rest", .dict [("credential", .str "cr"), ("token", .str "tk")])]),
   ("database.name", .str "lake")]

/-- Job whose source declares the unsupported `mysql` connector. -/
def c8cfg : JobConfig :=
  ⟨[("connector", .str "mysql"), ("hostname", .str "h")], c1sink, [c1r1]⟩

/-- Postgres source with a scalar `database` and an invalid empty `slot`
block: validation reaches the normalization point and then fails. -/
def c9cfg : Dict :=
  [("connector", .str "postgres"), ("hostname", .str "h"), ("port", .int 5432),
   ("username", .str "u"), ("password", .str "p"), ("database", .str "db1"),
   ("slot", .dict [])]

/-- Postgres source missing every field but the connector. -/
def c9missing : Dict := [("connector", .str "postgres")]

/-- Route whose `sink_table` has no dot separator. -/
def c10route : Dict := [("source_table", .str "public.orders"), ("sink_table", .str "orders")]

/-!
## Dictionary and flattening lemmas
-/

theorem dget_dset_self (t : Dict) (k : String) (v : Val) : dget (dset t k v) k = some v := by
  induction t with
  | nil => simp [dset, dget]
  | cons p rest ih =>
      obtain ⟨k', v'⟩ := p
      by_cases h : k' = k
      · subst h; simp [dset, dget]
      · simp [dset, dget, h, ih]

theorem dget_dset_ne (t : Dict) (k k' : String) (v : Val) (h : k' ≠ k) :
    dget (dset t k' v) k = dget t k := by
  induction t with
  | nil => simp [dset, dget, h]
  | cons p rest ih =>
      obtain ⟨k₀, v₀⟩ := p
      by_cases h0 : k₀ = k'
      · subst h0; simp [dset, dget, h]
      · by_cases h1 : k₀ = k
        · subst h1; simp [dset, dget, h0]
        · simp [dset, dget, h0, h1, ih]

/-- Left-biased choice on optional values: the value a lookup sees after
an overwrite pass, if the pass wrote the key, else the previous value. -/
def oElse : Option Val → Option Val → Option Val
  | some v, _ => some v
  | none, o => o

theorem oElse_assoc (a b c : Option Val) : oElse (oElse a b) c = oElse a (oElse b c) := by
  cases a <;> cases b <;> rfl

theorem oElse_none_right (a : Option Val) : oElse a none = a := by
  cases a <;> rfl

theorem dget_dset_general (t : Dict) (k k' : String) (v : Val) :
    dget (dset t k' v) k = oElse (if k' = k then some v else none) (dget t k) := by
  by_cases h : k' = k
  · subst h; simp [dget_dset_self, oElse]
  · simp [dget_dset_ne t k k' v h, h, oElse]

theorem dget_dset_nil (k k' : String) (v : Val) :
    dget (dset [] k' v) k = if k' = k then some v else none := by
  by_cases h : k' = k <;> simp [dset, dget, h]

theorem sizeOf_val_pos (v : Val) : 0 < sizeOf v := by
  cases v <;> simp

theorem fdm_nil (parent : String) (t : Dict) : flatten_dict_to_map [] parent t = t := by
  simp [flatten_dict_to_map]

theorem fdm_cons_dict (k₀ : String) (d' rest : List (String × Val)) (parent : String) (t : Dict) :
    flatten_dict_to_map ((k₀, Val.dict d') :: rest) parent t =
      flatten_dict_to_map rest parent (flatten_dict_to_map d' (joinKey parent k₀) t) := by
  simp [flatten_dict_to_map]

theorem fdm_cons_str (k₀ s : String) (rest : List (String × Val)) (parent : String) (t : Dict) :
    flatten_dict_to_map ((k₀, Val.str s) :: rest) parent t =
      flatten_dict_to_map rest parent (dset t (joinKey parent k₀) (.str s)) := by
  simp [flatten_dict_to_map]

theorem fdm_cons_int (k₀ : String) (m : Int) (rest : List (String × Val)) (parent : String) (t : Dict) :
    flatten_dict_to_map ((k₀, Val.int m) :: rest) parent t =
      flatten_dict_to_map rest parent (dset t (joinKey parent k₀) (.int m)) := by
  simp [flatten_dict_to_map]

theorem fdm_cons_bool (k₀ : String) (b : Bool) (rest : List (String × Val)) (parent : String) (t : Dict) :
    flatten_dict_to_map ((k₀, Val.bool b) :: rest) parent t =
      flatten_dict_to_map rest parent (dset t (joinKey parent k₀) (.bool b)) := by
  simp [flatten_dict_to_map]

/-- Lookup after `flatten_dict_to_map` equals the flattener's own writes
when they cover the key, else the original target's value. -/
theorem dget_fdm_master :
    ∀ (n : Nat) (d : List (String × Val)), sizeOf d ≤ n →
      ∀ (parent : String) (t : Dict) (k : String),
        dget (flatten_dict_to_map d parent t) k =
          oElse (dget (flatten_dict_to_map d parent []) k) (dget t k) := by
  intro n
  induction n with
  | zero =>
      intro d hd parent t k
      cases d <;> simp at hd
  | succ n ih =>
      intro d hd parent t k
      match d with
      | [] => simp [fdm_nil, dget, oElse]
      | (k₀, v₀) :: rest =>
        have hrest : sizeOf rest ≤ n := by
          have := sizeOf_val_pos v₀
          simp at hd; omega
        match v₀ with
        | .dict d' =>
            have hd' : sizeOf d' ≤ n := by simp at hd; omega
            rw [fdm_cons_dict, fdm_cons_dict,
                ih rest hrest parent (flatten_dict_to_map d' (joinKey parent k₀) t) k,
                ih d' hd' (joinKey parent k₀) t k,
                ih rest hrest parent (flatten_dict_to_map d' (joinKey parent k₀) []) k,
                oElse_assoc]
        | .str s =>
            rw [fdm_cons_str, fdm_cons_str,
                ih rest hrest parent (dset t (joinKey parent k₀) (.str s)) k,
                ih rest hrest parent (dset [] (joinKey parent k₀) (.str s)) k,
                dget_dset_general, dget_dset_nil, oElse_assoc]
        | .int m =>
            rw [fdm_cons_int, fdm_cons_int,
                ih rest hrest parent (dset t (joinKey parent k₀) (.int m)) k,
                ih rest hrest parent (dset [] (joinKey parent k₀) (.int m)) k,
                dget_dset_general, dget_dset_nil, oElse_assoc]
        | .bool b =>
            rw [fdm_cons_bool, fdm_cons_bool,
                ih rest hrest parent (dset t (joinKey parent k₀) (.bool b)) k,
                ih rest hrest parent (dset [] (joinKey parent k₀) (.bool b)) k,
                dget_dset_general, dget_dset_nil, oElse_assoc]

theorem dget_fdm (d : List (String × Val)) (parent : String) (t : Dict) (k : String) :
    dget (flatten_dict_to_map d parent t) k =
      oElse (dget (flatten_dict_to_map d parent []) k) (dget t k) :=
  dget_fdm_master (sizeOf d) d (Nat.le_refl _) parent t k

/-- Lookup after `process_config` equals the pass's own writes when they
cover the key, else the original target's value. -/
theorem dget_process_master (c : Dict) :
    ∀ (t : Dict) (k : String),
      dget (process_config c t) k = oElse (dget (process_config c []) k) (dget t k) := by
  induction c with
  | nil => intro t k; simp [process_config, dget, oElse]
  | cons p rest ih =>
      obtain ⟨k₀, v₀⟩ := p
      intro t k
      match v₀ with
      | .dict d' =>
          show dget (process_config rest (flatten_dict_to_map d' k₀ t)) k = _
          rw [ih (flatten_dict_to_map d' k₀ t) k, dget_fdm]
          show _ = oElse (dget (process_config rest (flatten_dict_to_map d' k₀ [])) k) (dget t k)
          rw [ih (flatten_dict_to_map d' k₀ []) k, oElse_assoc]
      | .str s =>
          show dget (process_config rest (dset t k₀ (.str s))) k = _
          rw [ih (dset t k₀ (.str s)) k]
          show _ = oElse (dget (process_config rest (dset [] k₀ (.str s))) k) (dget t k)
          rw [ih (dset [] k₀ (.str s)) k, dget_dset_general, dget_dset_nil, oElse_assoc]
      | .int m =>
          show dget (process_config rest (dset t k₀ (.int m))) k = _
          rw [ih (dset t k₀ (.int m)) k]
          show _ = oElse (dget (process_config rest (dset [] k₀ (.int m))) k) (dget t k)
          rw [ih (dset [] k₀ (.int m)) k, dget_dset_general, dget_dset_nil, oElse_assoc]
      | .bool b =>
          show dget (process_config rest (dset t k₀ (.bool b))) k = _
          rw [ih (dset t k₀ (.bool b)) k]
          show _ = oElse (dget (process_config rest (dset [] k₀ (.bool b))) k) (dget t k)
          rw [ih (dset [] k₀ (.bool b)) k, dget_dset_general, dget_dset_nil, oElse_assoc]

/-- A lookup hit is witnessed by a pair in the list. -/
theorem dget_some_mem (d : Dict) (k : String) (v : Val) (h : dget d k = some v) :
    (k, v) ∈ d := by
  induction d with
  | nil => simp [dget] at h
  | cons p rest ih =>
      obtain ⟨k₀, v₀⟩ := p
      by_cases h0 : k₀ = k
      · subst h0
        simp [dget] at h
        simp [h]
      · simp [dget, h0] at h
        exact List.mem_cons_of_mem _ (ih h)

/-- A failed lookup means no pair carries the key. -/
theorem dget_none_keys (d : Dict) (k : String) (h : dget d k = none) :
    ∀ p ∈ d, p.1 ≠ k := by
  induction d with
  | nil => simp
  | cons p rest ih =>
      obtain ⟨k₀, v₀⟩ := p
      by_cases h0 : k₀ = k
      · subst h0; simp [dget] at h
      · simp [dget, h0] at h
        intro q hq
        rcases List.mem_cons.mp hq with hq | hq
        · subst hq; exact h0
        · exact ih h q hq

/-- Keys of the association list, in order. -/
def dkeys (d : Dict) : List String := d.map Prod.fst

theorem mem_dkeys_dset (t : Dict) (k : String) (v : Val) :
    ∀ x, x ∈ dkeys (dset t k v) → x ∈ dkeys t ∨ x = k := by
  induction t with
  | nil => intro x hx; simp [dset, dkeys] at hx; right; exact hx
  | cons p rest ih =>
      obtain ⟨k₀, v₀⟩ := p
      intro x hx
      by_cases h0 : k₀ = k
      · subst h0
        simp [dset, dkeys] at hx
        rcases hx with hx | hx
        · right; exact hx
        · left; simp [dkeys, hx]
      · simp [dset, h0, dkeys] at hx
        rcases hx with hx | hx
        · left; simp [dkeys, hx]
        · rcases ih x (by simpa [dkeys] using hx) with h | h
          · left; simp [dkeys] at h ⊢; right; exact h
          · right; exact h

theorem dkeys_nodup_dset (t : Dict) (k : String) (v : Val) (h : (dkeys t).Nodup) :
    (dkeys (dset t k v)).Nodup := by
  induction t with
  | nil => simp [dset, dkeys]
  | cons p rest ih =>
      obtain ⟨k₀, v₀⟩ := p
      simp [dkeys] at h
      by_cases h0 : k₀ = k
      · subst h0
        simpa [dset, dkeys] using h
      · simp [dset, h0, dkeys]
        refine ⟨?_, by simpa [dkeys] using ih h.2⟩
        rintro x hx
        rcases mem_dkeys_dset rest k v k₀
            (by simpa [dkeys] using List.mem_map_of_mem Prod.fst hx) with hmem | hmem
        · rcases (show ∃ y, (k₀, y) ∈ rest by simpa [dkeys] using hmem) with ⟨b, hb⟩
          exact h.1 b hb
        · exact h0 hmem

/-- The `flatten_dict_to_map` pass only writes through `dset`, so it preserves key
uniqueness of the target map. -/
theorem dkeys_nodup_fdm :
    ∀ (n : Nat) (d : List (String × Val)), sizeOf d ≤ n →
      ∀ (parent : String) (t : Dict), (dkeys t).Nodup →
        (dkeys (flatten_dict_to_map d parent t)).Nodup := by
  intro n
  induction n with
  | zero => intro d hd; cases d <;> simp at hd
  | succ n ih =>
      intro d hd parent t ht
      match d with
      | [] => simpa [fdm_nil] using ht
      | (k₀, v₀) :: rest =>
        have hrest : sizeOf rest ≤ n := by
          have := sizeOf_val_pos v₀
          simp at hd; omega
        match v₀ with
        | .dict d' =>
            have hd' : sizeOf d' ≤ n := by simp at hd; omega
            rw [fdm_cons_dict]
            exact ih rest hrest parent _ (ih d' hd' (joinKey parent k₀) t ht)
        | .str s =>
            rw [fdm_cons_str]
            exact ih rest hrest parent _ (dkeys_nodup_dset t _ _ ht)
        | .int m =>
            rw [fdm_cons_int]
            exact ih rest hrest parent _ (dkeys_nodup_dset t _ _ ht)
        | .bool b =>
            rw [fdm_cons_bool]
            exact ih rest hrest parent _ (dkeys_nodup_dset t _ _ ht)

/-- The `process_config` pass preserves key uniqueness of the target map. -/
theorem dkeys_nodup_process (c : Dict) :
    ∀ (t : Dict), (dkeys t).Nodup → (dkeys (process_config c t)).Nodup := by
  induction c with
  | nil => intro t ht; simpa [process_config] using ht
  | cons p rest ih =>
      obtain ⟨k₀, v₀⟩ := p
      intro t ht
      match v₀ with
      | .dict d' =>
          show (dkeys (process_config rest (flatten_dict_to_map d' k₀ t))).Nodup
          exact ih _ (dkeys_nodup_fdm (sizeOf d') d' (Nat.le_refl _) k₀ t ht)
      | .str s => exact ih _ (dkeys_nodup_dset t _ _ ht)
      | .int m => exact ih _ (dkeys_nodup_dset t _ _ ht)
      | .bool b => exact ih _ (dkeys_nodup_dset t _ _ ht)

/-- The merged sink/route property map has unique keys. -/
theorem sinkPropPairs_nodup (sink route : Dict) :
    (dkeys (sinkPropPairs sink route)).Nodup := by
  unfold sinkPropPairs
  exact dkeys_nodup_process route _ (dkeys_nodup_process sink [] (by simp [dkeys]))

/-- With unique keys, a lookup hit is the only pair carrying its key. -/
theorem dget_unique (d : Dict) (k : String) (v : Val)
    (hnd : (dkeys d).Nodup) (h : dget d k = some v) :
    ∀ v', (k, v') ∈ d → v' = v := by
  induction d with
  | nil => simp
  | cons p rest ih =>
      obtain ⟨k₀, v₀⟩ := p
      simp [dkeys] at hnd
      intro v' hv'
      by_cases h0 : k₀ = k
      · subst h0
        simp [dget] at h
        rcases List.mem_cons.mp hv' with hv' | hv'
        · cases hv'; exact h
        · exact absurd hv' (by simpa using hnd.1 v')
      · simp [dget, h0] at h
        rcases List.mem_cons.mp hv' with hv' | hv'
        · cases hv'; exact absurd rfl h0
        · exact ih (by simpa [dkeys] using hnd.2) h v' hv'

theorem dget_cons_none (k₀ : String) (v : Val) (rest : Dict) (k : String)
    (h : dget ((k₀, v) :: rest) k = none) : k₀ ≠ k ∧ dget rest k = none := by
  by_cases h0 : k₀ = k
  · subst h0; simp [dget] at h
  · simp [dget, h0] at h; exact ⟨h0, h⟩

theorem joinKey_ne_nodot (parent k' k : String) (hp : parent ≠ "")
    (hk : '.' ∉ k.data) : joinKey parent k' ≠ k := by
  intro he
  apply hk
  rw [← he]
  simp [joinKey, hp, String.data_append]

theorem joinKey_ne_empty (parent k' : String) (hp : parent ≠ "") :
    joinKey parent k' ≠ "" := by
  intro he
  have : ('.' : Char) ∈ (joinKey parent k' : String).data := by
    simp [joinKey, hp, String.data_append]
  rw [he] at this
  simp at this

/-- With a non-empty parent path, the recursive flattener writes only
dotted keys, so a dotless key's binding is untouched. -/
theorem dget_fdm_nodot :
    ∀ (n : Nat) (d : List (String × Val)), sizeOf d ≤ n →
      ∀ (parent : String) (t : Dict) (k : String), parent ≠ "" → '.' ∉ k.data →
        dget (flatten_dict_to_map d parent t) k = dget t k := by
  intro n
  induction n with
  | zero => intro d hd; cases d <;> simp at hd
  | succ n ih =>
      intro d hd parent t k hp hk
      match d with
      | [] => simp [fdm_nil]
      | (k₀, v₀) :: rest =>
        have hrest : sizeOf rest ≤ n := by
          have := sizeOf_val_pos v₀
          simp at hd; omega
        match v₀ with
        | .dict d' =>
            have hd' : sizeOf d' ≤ n := by simp at hd; omega
            rw [fdm_cons_dict, ih rest hrest parent _ k hp hk,
                ih d' hd' (joinKey parent k₀) t k (joinKey_ne_empty parent k₀ hp) hk]
        | .str s =>
            rw [fdm_cons_str, ih rest hrest parent _ k hp hk,
                dget_dset_ne t k _ _ (joinKey_ne_nodot parent k₀ k hp hk)]
        | .int m =>
            rw [fdm_cons_int, ih rest hrest parent _ k hp hk,
                dget_dset_ne t k _ _ (joinKey_ne_nodot parent k₀ k hp hk)]
        | .bool b =>
            rw [fdm_cons_bool, ih rest hrest parent _ k hp hk,
                dget_dset_ne t k _ _ (joinKey_ne_nodot parent k₀ k hp hk)]

/-- A dotless key absent from a config (which also has no empty-string
key) is not written by `process_config`. -/
theorem dget_process_nodot (c : Dict) :
    ∀ (t : Dict) (k : String), dget c k = none → dget c "" = none → '.' ∉ k.data →
      dget (process_config c t) k = dget t k := by
  induction c with
  | nil => intro t k _ _ _; simp [process_config]
  | cons p rest ih =>
      obtain ⟨k₀, v₀⟩ := p
      intro t k hk h0 hdot
      obtain ⟨hne, hkrest⟩ := dget_cons_none _ _ _ _ hk
      obtain ⟨hne0, h0rest⟩ := dget_cons_none _ _ _ _ h0
      match v₀ with
      | .dict d' =>
          show dget (process_config rest (flatten_dict_to_map d' k₀ t)) k = dget t k
          rw [ih _ k hkrest h0rest hdot,
              dget_fdm_nodot (sizeOf d') d' (Nat.le_refl _) k₀ t k hne0 hdot]
      | .str s =>
          show dget (process_config rest (dset t k₀ (.str s))) k = dget t k
          rw [ih _ k hkrest h0rest hdot, dget_dset_ne t k k₀ _ hne]
      | .int m =>
          show dget (process_config rest (dset t k₀ (.int m))) k = dget t k
          rw [ih _ k hkrest h0rest hdot, dget_dset_ne t k k₀ _ hne]
      | .bool b =>
          show dget (process_config rest (dset t k₀ (.bool b))) k = dget t k
          rw [ih _ k hkrest h0rest hdot, dget_dset_ne t k k₀ _ hne]

/-- A member of a string list occurs inside its concatenation. -/
theorem joinStr_decomp (l : List String) (x : String) (hx : x ∈ l) :
    ∃ a b, joinStr l = a ++ x ++ b := by
  induction l with
  | nil => simp at hx
  | cons hd tl ih =>
      rcases List.mem_cons.mp hx with hx | hx
      · subst hx
        exact ⟨"", joinStr tl, by simp [joinStr, String.empty_append]⟩
      · rcases ih hx with ⟨a, b, hab⟩
        exact ⟨hd ++ a, b, by simp [joinStr, hab, String.append_assoc]⟩

theorem pySplitAux_no_dot :
    ∀ (l acc : List Char), ('.' ∉ l) → pySplitAux l acc = [acc.reverse ++ l] := by
  intro l
  induction l with
  | nil => intro acc _; simp [pySplitAux]
  | cons c rest ih =>
      intro acc hc
      have hcne : c ≠ '.' := by
        intro h; exact hc (by simp [h])
      have hrest : ('.' : Char) ∉ rest := by
        intro h; exact hc (by simp [h])
      simp [pySplitAux, hcne, ih (c :: acc) hrest]

theorem string_mk_data (s : String) : String.mk s.data = s := rfl

theorem pySplitDot_no_dot (s : String) (h : '.' ∉ s.data) : pySplitDot s = [s] := by
  rw [pySplitDot, pySplitAux_no_dot s.data [] h]
  simp [string_mk_data]

theorem lastSeg_no_dot (s : String) (h : '.' ∉ s.data) : lastSeg s = s := by
  rw [lastSeg, pySplitDot_no_dot s h]
  rfl

theorem dbNameOf_no_dot (s : String) (h : '.' ∉ s.data) : dbNameOf s = "" := by
  rw [dbNameOf, pySplitDot_no_dot s h]
  rfl

/-- Flattened property line for a scalar entry of a nested block. -/
theorem mem_flatten_dict_props_scalar (d : List (String × Val)) (parent k : String) (v : Val)
    (hmem : (k, v) ∈ d) (hnd : ∀ d', v ≠ .dict d') :
    (joinKey parent k ++ " = " ++ quoteConn v) ∈ flatten_dict_props d parent := by
  induction d with
  | nil => simp at hmem
  | cons p rest ih =>
      obtain ⟨k₀, v₀⟩ := p
      rcases List.mem_cons.mp hmem with h | h
      · cases h
        match v, hnd with
        | .str s, _ => simp [flatten_dict_props]
        | .int m, _ => simp [flatten_dict_props]
        | .bool b, _ => simp [flatten_dict_props]
        | .dict d', hnd => exact absurd rfl (hnd d')
      · match v₀ with
        | .dict d' => simp [flatten_dict_props]; right; exact ih h
        | .str s => simp [flatten_dict_props]; right; exact ih h
        | .int m => simp [flatten_dict_props]; right; exact ih h
        | .bool b => simp [flatten_dict_props]; right; exact ih h

/-- Everything flattened from a nested sub-block is flattened from the
block. -/
theorem mem_flatten_dict_props_dict (d : List (String × Val)) (parent k : String)
    (d' : List (String × Val)) (hmem : (k, Val.dict d') ∈ d) :
    ∀ x ∈ flatten_dict_props d' (joinKey parent k), x ∈ flatten_dict_props d parent := by
  induction d with
  | nil => simp at hmem
  | cons p rest ih =>
      obtain ⟨k₀, v₀⟩ := p
      intro x hx
      rcases List.mem_cons.mp hmem with h | h
      · cases h
        simp [flatten_dict_props]
        exact Or.inl hx
      · match v₀ with
        | .dict d₀ => simp [flatten_dict_props]; right; exact ih h x hx
        | .str s => simp [flatten_dict_props]; right; exact ih h x hx
        | .int m => simp [flatten_dict_props]; right; exact ih h x hx
        | .bool b => simp [flatten_dict_props]; right; exact ih h x hx

/-- Everything flattened from a valid connection-property key's dict
value appears among the connection properties. -/
theorem mem_connection_props (c : Dict) (k : String) (d : List (String × Val))
    (hmem : (k, Val.dict d) ∈ c) (hvalid : valid_connection_props.contains k = true) :
    ∀ x ∈ flatten_dict_props d k, x ∈ connection_props c := by
  induction c with
  | nil => simp at hmem
  | cons p rest ih =>
      obtain ⟨k₀, v₀⟩ := p
      intro x hx
      rcases List.mem_cons.mp hmem with h | h
      · cases h
        simp [connection_props, hvalid]
        exact Or.inl ⟨by simpa using hvalid, hx⟩
      · simp [connection_props]
        right
        exact ih h x hx

theorem validate_route_ok_iff (r : Dict) :
    validate_route r = .ok () ↔ (hasKey r "source_table" = true ∧ hasKey r "sink_table" = true) := by
  cases h1 : hasKey r "source_table" <;> cases h2 : hasKey r "sink_table" <;>
    simp [validate_route, h1, h2]

theorem validate_routes_ok (rs : List Dict)
    (h : ∀ r ∈ rs, hasKey r "source_table" = true ∧ hasKey r "sink_table" = true) :
    validate_routes rs = .ok () := by
  induction rs with
  | nil => rfl
  | cons r rest ih =>
      have hr := h r (List.mem_cons_self r rest)
      have hok : validate_route r = .ok () := (validate_route_ok_iff r).mpr hr
      have hrest := ih (fun q hq => h q (List.mem_cons_of_mem r hq))
      simp [validate_routes, hok, hrest, Bind.bind, Except.bind]

theorem gen_table_stmts_postgres (S : Dict) (rs : List Dict)
    (h : ∀ r ∈ rs, ∃ st, dget r "source_table" = some (.str st)) :
    gen_table_stmts .postgres S rs = .ok (rs.map (pg_table_view S)) := by
  induction rs with
  | nil => rfl
  | cons r rest ih =>
      obtain ⟨st, hst⟩ := h r (List.mem_cons_self r rest)
      have hcr : create_table .postgres S r = .ok (pg_table_view S r) := by
        simp [create_table, pg_create_table, hst]
      have hrest := ih (fun q hq => h q (List.mem_cons_of_mem r hq))
      simp [gen_table_stmts, has_create_table, hcr, hrest, Bind.bind, Except.bind]

theorem gen_sink_stmts_iceberg (S SK : Dict) (name : String) (rs : List Dict)
    (h : ∀ r ∈ rs, (∃ st, dget r "sink_table" = some (.str st))
                   ∧ (∃ sr, dget r "source_table" = some (.str sr))) :
    gen_sink_stmts .iceberg S SK name rs =
      .ok (rs.map (fun r => iceberg_sink_view (dset SK "connection_name" (.str name)) r none)) := by
  induction rs with
  | nil => rfl
  | cons r rest ih =>
      obtain ⟨⟨st, hst⟩, ⟨sr, hsr⟩⟩ := h r (List.mem_cons_self r rest)
      have hcr : create_sink .iceberg S (dset SK "connection_name" (.str name)) r =
          .ok (iceberg_sink_view (dset SK "connection_name" (.str name)) r none) := by
        simp [create_sink, iceberg_create_sink, hst, hsr]
      have hrest := ih (fun q hq => h q (List.mem_cons_of_mem r hq))
      simp [gen_sink_stmts, supports_connection, hcr, hrest, Bind.bind, Except.bind]

theorem lit_head_split {lit p q : String} (h : lit = p ++ q) (t : String) :
    ∃ r, lit ++ t = p ++ r :=
  ⟨q ++ t, by rw [h, String.append_assoc]⟩

/-!
## Claim theorems
-/


/-- C1: for a valid job configuration with a postgres source, an iceberg
sink, and routes [r1, ..., rn], `generate_sql` returns exactly one CREATE
SOURCE statement, then n table-creation statements (one per route, in
route order), then one CREATE CONNECTION statement for the sink (shared
across routes), then n sink-creation statements (one per route, in route
order), concatenated with newline separators.  The source configuration
used for rendering is the one returned by the (possibly-normalizing)
postgres validator. -/
theorem generate_sql_postgres_iceberg_statement_order
    (cfg : JobConfig)
    (hsrc : dget cfg.source "connector" = some (.str "postgres"))
    (hsink : dget cfg.sink "connector" = some (.str "iceberg"))
    (hsv : (postgres_validate_config cfg.source).1 = .ok ())
    (hkv : iceberg_validate_config cfg.sink = .ok ())
    (hne : cfg.route ≠ [])
    (hroutes : ∀ r ∈ cfg.route,
        (∃ st, dget r "sink_table" = some (.str st))
        ∧ (∃ sr, dget r "source_table" = some (.str sr))) :
    generate_sql cfg = .ok (String.intercalate "\n"
      ([pg_create_source (postgres_validate_config cfg.source).2]
       ++ cfg.route.map (pg_table_view (postgres_validate_config cfg.source).2)
       ++ [iceberg_create_connection cfg.sink "iceberg_connection"]
       ++ cfg.route.map (fun r =>
            iceberg_sink_view (dset cfg.sink "connection_name" (.str "iceberg_connection")) r none)))
    ∧ (∃ t, pg_create_source (postgres_validate_config cfg.source).2 = "\nCREATE SOURCE " ++ t)
    ∧ (∀ r ∈ cfg.route,
        ∃ t, pg_table_view (postgres_validate_config cfg.source).2 r = "\nCREATE TABLE " ++ t)
    ∧ (∃ t, iceberg_create_connection cfg.sink "iceberg_connection" = "\nCREATE CONNECTION " ++ t)
    ∧ (∀ r ∈ cfg.route,
        ∃ t, iceberg_sink_view (dset cfg.sink "connection_name" (.str "iceberg_connection")) r none
             = "\nCREATE SINK " ++ t) := by
  obtain ⟨src, snk, rs⟩ := cfg
  simp only at hsrc hsink hsv hkv hne hroutes ⊢
  have h1 : hasKey src "connector" = true := by rw [hasKey, hsrc]; rfl
  have h2 : hasKey snk "connector" = true := by rw [hasKey, hsink]; rfl
  have h3 : dgetD src "connector" = Val.str "postgres" := by rw [dgetD, hsrc]; rfl
  have h4 : dgetD snk "connector" = Val.str "iceberg" := by rw [dgetD, hsink]; rfl
  have h5 : get_connector_instance (Val.str "postgres") = .ok .postgres := rfl
  have h6 : get_connector_instance (Val.str "iceberg") = .ok .iceberg := rfl
  rcases hPV : postgres_validate_config src with ⟨pv1, S1⟩
  rw [hPV] at hsv
  simp only at hsv
  subst hsv
  simp only
  have hempty : rs.isEmpty = false := by
    cases rs
    · exact absurd rfl hne
    · rfl
  have hvr : validate_routes rs = .ok () := by
    refine validate_routes_ok rs (fun r hr => ⟨?_, ?_⟩)
    · obtain ⟨sr, hsr⟩ := (hroutes r hr).2
      rw [hasKey, hsr]; rfl
    · obtain ⟨st, hst⟩ := (hroutes r hr).1
      rw [hasKey, hst]; rfl
  have hname : pyStr (dgetD snk "connector") ++ "_connection" = "iceberg_connection" := by
    rw [h4]; rfl
  have htab := gen_table_stmts_postgres S1 rs (fun r hr => (hroutes r hr).2)
  have hsinks := gen_sink_stmts_iceberg S1 snk "iceberg_connection" rs hroutes
  refine ⟨?_, ?_, ?_, ?_, ?_⟩
  · rw [generate_sql]
    simp only [h1, h2, h3, h4, h5, h6, validate_config, hPV, hkv, hempty, hvr,
      supports_connection, create_source, create_connection, hname, htab, hsinks,
      Except.map, Bool.not_true, Bool.false_eq_true, if_false]
    simp [show pyStr (Val.str "iceberg") ++ "_connection" = "iceberg_connection" from rfl, hsinks]
  · simp only [pg_create_source, String.append_assoc]
    exact lit_head_split (p := "\nCREATE SOURCE ") (q := "postgres_") rfl _
  · intro r hr
    simp only [pg_table_view, String.append_assoc]
    exact ⟨_, rfl⟩
  · simp only [iceberg_create_connection, renderIcebergConnection, String.append_assoc]
    exact ⟨_, rfl⟩
  · intro r hr
    simp only [iceberg_sink_view, renderIcebergSink, String.append_assoc]
    exact ⟨_, rfl⟩

/-- C1 witness: the statement-order theorem applied to a concrete
two-route postgres-to-iceberg job. -/
theorem generate_sql_statement_order_witness :
    generate_sql c1cfg = .ok (String.intercalate "\n"
      ([pg_create_source (postgres_validate_config c1cfg.source).2]
       ++ c1cfg.route.map (pg_table_view (postgres_validate_config c1cfg.source).2)
       ++ [iceberg_create_connection c1cfg.sink "iceberg_connection"]
       ++ c1cfg.route.map (fun r =>
            iceberg_sink_view (dset c1cfg.sink "connection_name" (.str "iceberg_connection")) r none))) := by
  refine (generate_sql_postgres_iceberg_statement_order c1cfg rfl rfl rfl rfl
    (by simp [c1cfg]) ?_).1
  intro r hr
  simp [c1cfg] at hr
  rcases hr with rfl | rfl
  · exact ⟨⟨"lake.orders", rfl⟩, ⟨"public.orders", rfl⟩⟩
  · exact ⟨⟨"lake.users", rfl⟩, ⟨"public.users", rfl⟩⟩

theorem append3_mem (A B : String) (L : List String) (x : String) (hx : x ∈ L) :
    ∃ pre post, A ++ joinStr (L.map (fun p => ",\n    " ++ p)) ++ B = pre ++ x ++ post := by
  rcases joinStr_decomp (L.map (fun p => ",\n    " ++ p)) (",\n    " ++ x)
      (List.mem_map_of_mem _ hx) with ⟨a, b, hab⟩
  refine ⟨A ++ (a ++ ",\n    "), b ++ B, ?_⟩
  rw [hab]
  simp only [String.append_assoc]

/-- C2: when sink and route configurations share a flattened property key
(outside the excluded structural/connection keys), the merged property
map holds the route's value, the rendered property list carries the
route's value (and nothing else for that key), and the rendered sink
statement contains the route-valued property line. -/
theorem iceberg_sink_route_override
    (source sink route : Dict) (k : String) (vr : Val) (st sr : String)
    (hk : dget (process_config route []) k = some vr)
    (hskip : sinkSkipKey k = false)
    (hst : dget route "sink_table" = some (.str st))
    (hsr : dget route "source_table" = some (.str sr)) :
    dget (sinkPropPairs sink route) k = some vr
    ∧ (∀ v', (k, v') ∈ sinkPropPairs sink route → v' = vr)
    ∧ (k ++ " = " ++ quoteSink vr) ∈ sinkProps sink route
    ∧ ∃ stmt pre post, iceberg_create_sink source sink route none = .ok stmt
        ∧ stmt = pre ++ (k ++ " = " ++ quoteSink vr) ++ post := by
  have ha : dget (sinkPropPairs sink route) k = some vr := by
    rw [sinkPropPairs, dget_process_master route (process_config sink []) k, hk]
    rfl
  have hb := dget_unique _ k vr (sinkPropPairs_nodup sink route) ha
  have hmemPair : (k, vr) ∈ sinkPropPairs sink route := dget_some_mem _ k vr ha
  have hc : (k ++ " = " ++ quoteSink vr) ∈ sinkProps sink route := by
    refine List.mem_filterMap.mpr ⟨(k, vr), hmemPair, ?_⟩
    simp [hskip]
  refine ⟨ha, hb, hc, ?_⟩
  have hrun : iceberg_create_sink source sink route none =
      .ok (iceberg_sink_view sink route none) := by
    simp [iceberg_create_sink, hst, hsr]
  refine ⟨iceberg_sink_view sink route none, ?_⟩
  rw [iceberg_sink_view, renderIcebergSink]
  rcases append3_mem
      ("\nCREATE SINK " ++ lastSeg (routeStr route "sink_table") ++ "_sink\nFROM "
        ++ lastSeg (routeStr route "source_table")
        ++ "\nWITH (\n    connector = 'iceberg',\n    database.name = '"
        ++ dbNameOf (routeStr route "sink_table")
        ++ "',\n    table.name = '" ++ lastSeg (routeStr route "sink_table") ++ "'"
        ++ (match (none : Option String) with
            | some c => if c = "" then "" else ",\n    connection = " ++ c
            | none => ""))
      "\n);" (sinkProps sink route) (k ++ " = " ++ quoteSink vr) hc with ⟨pre, post, h⟩
  exact ⟨pre, post, hrun, h⟩

/-- C2 witness: the override theorem at a concrete sink/route pair both
setting `force_append_only`; the rendered statement carries the route's
value `'true'`, not the sink's `'false'`. -/
theorem iceberg_sink_route_override_witness :
    dget (sinkPropPairs c2sink c2route) "force_append_only" = some (.str "true")
    ∧ ("force_append_only" ++ " = " ++ quoteSink (.str "true")) ∈ sinkProps c2sink c2route := by
  have h := iceberg_sink_route_override [] c2sink c2route "force_append_only" (.str "true")
    "lake.orders" "public.orders" rfl rfl rfl rfl
  exact ⟨h.1, h.2.2.1⟩

/-- C3 counterexample: for a concrete valid sink configuration that does
not set `type` and a concrete route, the rendered sink statement contains
no `type` field at all (in particular no `type` fixed field defaulting to
"append-only"). -/
theorem iceberg_sink_type_field_counterexample :
    iceberg_create_sink [] c3sink c3route none = .ok (iceberg_sink_view c3sink c3route none)
    ∧ strHas (iceberg_sink_view c3sink c3route none) "type" = false
    ∧ strHas (iceberg_sink_view c3sink c3route none) "append-only" = false := by
  have hpp : sinkPropPairs c3sink c3route =
      [("connector", .str "iceberg"), ("catalog.rest.credential", .str "cr"),
       ("catalog.rest.token", .str "tk"), ("source_table", .str "public.orders"),
       ("sink_table", .str "lake.orders")] := by
    simp [sinkPropPairs, c3sink, c3route, process_config, fdm_cons_dict, fdm_cons_str,
          fdm_nil, dset, joinKey]
  have hprops : sinkProps c3sink c3route = [] := by rw [sinkProps, hpp]; rfl
  have hv : iceberg_sink_view c3sink c3route none =
      renderIcebergSink "orders" "orders" "lake" "orders" none [] := by
    rw [iceberg_sink_view, hprops]
    rfl
  exact ⟨rfl, by rw [hv]; rfl, by rw [hv]; rfl⟩

/-- C3 (amended): the Iceberg sink template has no `type` field.  When
neither the sink configuration nor the route sets a top-level `type` key
(and neither smuggles one in through an empty-string key), the merged
property map has no `type` entry, so the rendered statement consists of
the fixed fields `connector`, `database.name`, `table.name` (plus an
optional `connection` clause) followed by the generic properties, none of
which is a `type` property. -/
theorem iceberg_sink_no_type_field
    (source sink route : Dict) (st sr : String)
    (hs : dget sink "type" = none) (hs0 : dget sink "" = none)
    (hr : dget route "type" = none) (hr0 : dget route "" = none)
    (hst : dget route "sink_table" = some (.str st))
    (hsr : dget route "source_table" = some (.str sr)) :
    dget (sinkPropPairs sink route) "type" = none
    ∧ (∀ v, ("type", v) ∉ sinkPropPairs sink route)
    ∧ iceberg_create_sink source sink route none = .ok (iceberg_sink_view sink route none) := by
  have hdot : ('.' : Char) ∉ ("type" : String).data := by decide
  have ha : dget (sinkPropPairs sink route) "type" = none := by
    rw [sinkPropPairs, dget_process_nodot route _ "type" hr hr0 hdot,
        dget_process_nodot sink [] "type" hs hs0 hdot]
    rfl
  refine ⟨ha, ?_, by simp [iceberg_create_sink, hst, hsr]⟩
  intro v hv
  exact dget_none_keys _ "type" ha ("type", v) hv rfl

/-- C3 witness: the amended theorem at the concrete configuration of the
counterexample. -/
theorem iceberg_sink_no_type_field_witness :
    dget (sinkPropPairs c3sink c3route) "type" = none
    ∧ iceberg_create_sink [] c3sink c3route none = .ok (iceberg_sink_view c3sink c3route none) := by
  have h := iceberg_sink_no_type_field [] c3sink c3route "lake.orders" "public.orders"
    rfl rfl rfl rfl rfl rfl
  exact ⟨h.1, h.2.2⟩

theorem fdp_nil (parent : String) : flatten_dict_props [] parent = [] := by
  simp [flatten_dict_props]

theorem fdp_cons_dict (k : String) (d rest : List (String × Val)) (parent : String) :
    flatten_dict_props ((k, Val.dict d) :: rest) parent =
      flatten_dict_props d (joinKey parent k) ++ flatten_dict_props rest parent := by
  simp [flatten_dict_props]

theorem fdp_cons_str (k s : String) (rest : List (String × Val)) (parent : String) :
    flatten_dict_props ((k, Val.str s) :: rest) parent =
      (joinKey parent k ++ " = " ++ quoteConn (.str s)) :: flatten_dict_props rest parent := by
  simp [flatten_dict_props]

theorem fdp_cons_int (k : String) (m : Int) (rest : List (String × Val)) (parent : String) :
    flatten_dict_props ((k, Val.int m) :: rest) parent =
      (joinKey parent k ++ " = " ++ quoteConn (.int m)) :: flatten_dict_props rest parent := by
  simp [flatten_dict_props]

theorem fdp_cons_bool (k : String) (b : Bool) (rest : List (String × Val)) (parent : String) :
    flatten_dict_props ((k, Val.bool b) :: rest) parent =
      (joinKey parent k ++ " = " ++ quoteConn (.bool b)) :: flatten_dict_props rest parent := by
  simp [flatten_dict_props]

set_option maxRecDepth 8192 in
/-- C4 counterexample: for a concrete sink whose `catalog.rest` block has
`oauth2_server_uri` and `scope` fields, the rendered connection statement
keeps the full `catalog.rest.<field>` paths; no `catalog.<field>`
promotion occurs. -/
theorem iceberg_connection_promotion_counterexample :
    strHas (iceberg_create_connection c4sink "iceberg_connection")
      "catalog.rest.oauth2_server_uri = 'https://auth'" = true
    ∧ strHas (iceberg_create_connection c4sink "iceberg_connection")
        "catalog.oauth2_server_uri" = false
    ∧ strHas (iceberg_create_connection c4sink "iceberg_connection")
        "catalog.rest.scope = 'cat'" = true
    ∧ strHas (iceberg_create_connection c4sink "iceberg_connection")
        "catalog.scope" = false := by
  have hcp : connection_props c4sink =
      ["catalog.rest.oauth2_server_uri = 'https://auth'", "catalog.rest.scope = 'cat'",
       "catalog.rest.credential = 'cr'", "catalog.rest.token = 'tk'"] := by
    simp [connection_props, c4sink, fdp_cons_dict, fdp_cons_str, fdp_nil, joinKey,
          quoteConn, valid_connection_props]
  have hconn : iceberg_create_connection c4sink "iceberg_connection" =
      renderIcebergConnection "iceberg_connection"
        ["catalog.rest.oauth2_server_uri = 'https://auth'", "catalog.rest.scope = 'cat'",
         "catalog.rest.credential = 'cr'", "catalog.rest.token = 'tk'"] := by
    rw [iceberg_create_connection, hcp]
  exact ⟨by rw [hconn]; rfl, by rw [hconn]; rfl, by rw [hconn]; rfl, by rw [hconn]; rfl⟩

/-- C4 (amended): `create_connection` flattens every nested field of the
`catalog` block — `rest`/`jdbc` sub-objects included — with its full
dotted path: a scalar field `f` of `catalog.rest` is emitted as
`catalog.rest.f = <value>`, with no promotion of `oauth2_server_uri` or
`scope` to `catalog.<field>`. -/
theorem iceberg_connection_full_path_flattening
    (c cd rd : Dict) (f : String) (v : Val)
    (hc : dget c "catalog" = some (.dict cd))
    (hr : dget cd "rest" = some (.dict rd))
    (hf : dget rd f = some v)
    (hnd : ∀ d', v ≠ .dict d') :
    ("catalog.rest." ++ f ++ " = " ++ quoteConn v) ∈ connection_props c
    ∧ ∃ pre post, iceberg_create_connection c "iceberg_connection"
        = pre ++ ("catalog.rest." ++ f ++ " = " ++ quoteConn v) ++ post := by
  have h1 : (joinKey (joinKey "catalog" "rest") f ++ " = " ++ quoteConn v)
      ∈ flatten_dict_props rd (joinKey "catalog" "rest") :=
    mem_flatten_dict_props_scalar rd (joinKey "catalog" "rest") f v
      (dget_some_mem rd f v hf) hnd
  have h2 : (joinKey (joinKey "catalog" "rest") f ++ " = " ++ quoteConn v)
      ∈ flatten_dict_props cd "catalog" :=
    mem_flatten_dict_props_dict cd "catalog" "rest" rd (dget_some_mem cd "rest" _ hr) _ h1
  have h3 : (joinKey (joinKey "catalog" "rest") f ++ " = " ++ quoteConn v)
      ∈ connection_props c :=
    mem_connection_props c "catalog" cd (dget_some_mem c "catalog" _ hc) rfl _ h2
  have hjoin : joinKey (joinKey "catalog" "rest") f = "catalog.rest." ++ f := by
    rw [joinKey, joinKey]
    simp [String.append_assoc]
  rw [hjoin] at h3
  refine ⟨by simpa [String.append_assoc] using h3, ?_⟩
  rw [iceberg_create_connection, renderIcebergConnection]
  rcases append3_mem
      ("\nCREATE CONNECTION " ++ "iceberg_connection" ++ "\nWITH (\n    type = 'iceberg'")
      "\n);" (connection_props c) ("catalog.rest." ++ f ++ " = " ++ quoteConn v) h3
    with ⟨pre, post, h⟩
  exact ⟨pre, post, h⟩

/-- C4 witness: the full-path flattening theorem at the concrete
counterexample configuration and field `oauth2_server_uri`. -/
theorem iceberg_connection_full_path_witness :
    ("catalog.rest." ++ "oauth2_server_uri" ++ " = " ++ quoteConn (.str "https://auth"))
      ∈ connection_props c4sink :=
  (iceberg_connection_full_path_flattening c4sink
    [("rest", .dict [("oauth2_server_uri", .str "https://auth"), ("scope", .str "cat"),
                     ("credential", .str "cr"), ("token", .str "tk")])]
    [("oauth2_server_uri", .str "https://auth"), ("scope", .str "cat"),
     ("credential", .str "cr"), ("token", .str "tk")]
    "oauth2_server_uri" (.str "https://auth") rfl rfl rfl (fun _ h => Val.noConfusion h)).1

/-- C5 counterexample: a concrete iceberg sink whose s3 block carries the
claim's field names `access-key`/`secret-key` (with `endpoint` and
`region`) is rejected: the validator requires the fields `access` and
`secret` instead. -/
theorem iceberg_s3_field_names_counterexample :
    dget c5sink "s3" = some (.dict
      [("endpoint", .str "e"), ("region", .str "r"),
       ("access-key", .str "a"), ("secret-key", .str "s")])
    ∧ iceberg_validate_config c5sink = .error "Missing required S3 field: access" :=
  ⟨rfl, rfl⟩

/-- C5 (amended): the object-storage validation steps of
`validate_config` pass exactly when the code's required sub-fields are
present: s3 needs `endpoint`, `region`, `access`, `secret`; gcs needs
`credential`; azblob needs `account_name`, `account_key`,
`endpoint_url`. -/
theorem iceberg_storage_required_fields (c : Dict) :
    (∀ d, dget c "s3" = some (.dict d) →
       (iceberg_s3_check c = .ok () ↔
         (hasKey d "endpoint" = true ∧ hasKey d "region" = true
          ∧ hasKey d "access" = true ∧ hasKey d "secret" = true)))
    ∧ (∀ d, dget c "gcs" = some (.dict d) →
       (iceberg_gcs_check c = .ok () ↔ hasKey d "credential" = true))
    ∧ (∀ d, dget c "azblob" = some (.dict d) →
       (iceberg_azblob_check c = .ok () ↔
         (hasKey d "account_name" = true ∧ hasKey d "account_key" = true
          ∧ hasKey d "endpoint_url" = true))) := by
  refine ⟨?_, ?_, ?_⟩
  · intro d hd
    rw [iceberg_s3_check, hd]
    cases h1 : hasKey d "endpoint" <;> cases h2 : hasKey d "region" <;>
      cases h3 : hasKey d "access" <;> cases h4 : hasKey d "secret" <;>
        simp [List.find?, h1, h2, h3, h4]
  · intro d hd
    rw [iceberg_gcs_check, hd]
    cases h1 : hasKey d "credential" <;> simp [h1]
  · intro d hd
    rw [iceberg_azblob_check, hd]
    cases h1 : hasKey d "account_name" <;> cases h2 : hasKey d "account_key" <;>
      cases h3 : hasKey d "endpoint_url" <;> simp [List.find?, h1, h2, h3]

/-- C5 witness: the storage-field theorem at a concrete configuration
whose s3, gcs and azblob blocks carry all the required fields. -/
theorem iceberg_storage_required_fields_witness :
    iceberg_s3_check c5ok = .ok ()
    ∧ iceberg_gcs_check c5ok = .ok ()
    ∧ iceberg_azblob_check c5ok = .ok () := by
  have h := iceberg_storage_required_fields c5ok
  exact ⟨(h.1 _ rfl).mpr ⟨rfl, rfl, rfl, rfl⟩,
         (h.2.1 _ rfl).mpr rfl,
         (h.2.2 _ rfl).mpr ⟨rfl, rfl, rfl⟩⟩

/-- C6 counterexample: a route whose `source_table` and `sink_table` are
present but empty strings passes route validation, and a whole job built
from it generates successfully — generation does not fail on empty route
values, contrary to the claim. -/
theorem validate_route_empty_values_counterexample :
    dget c6route "source_table" = some (.str "")
    ∧ dget c6route "sink_table" = some (.str "")
    ∧ validate_route c6route = .ok ()
    ∧ (generate_sql c6cfg).isOk = true :=
  ⟨rfl, rfl, rfl, rfl⟩

/-- C6 (amended): route validation checks only key presence —
`validate_route` succeeds exactly when both `source_table` and
`sink_table` keys exist, regardless of their (possibly empty) values —
and generation fails with "Route configuration is required" when the
route list is empty (shown here for a postgres-to-iceberg job passing the
earlier validation stages). -/
theorem route_validation_spec :
    (∀ r : Dict, validate_route r = .ok ()
        ↔ (hasKey r "source_table" = true ∧ hasKey r "sink_table" = true))
    ∧ (∀ cfg : JobConfig,
        dget cfg.source "connector" = some (.str "postgres") →
        dget cfg.sink "connector" = some (.str "iceberg") →
        (postgres_validate_config cfg.source).1 = .ok () →
        iceberg_validate_config cfg.sink = .ok () →
        cfg.route = [] →
        generate_sql cfg = .error "Route configuration is required") := by
  refine ⟨validate_route_ok_iff, ?_⟩
  intro cfg hsrc hsink hsv hkv hroute
  obtain ⟨src, snk, rs⟩ := cfg
  simp only at hsrc hsink hsv hkv hroute ⊢
  subst hroute
  have h1 : hasKey src "connector" = true := by rw [hasKey, hsrc]; rfl
  have h2 : hasKey snk "connector" = true := by rw [hasKey, hsink]; rfl
  have h3 : dgetD src "connector" = Val.str "postgres" := by rw [dgetD, hsrc]; rfl
  have h4 : dgetD snk "connector" = Val.str "iceberg" := by rw [dgetD, hsink]; rfl
  have h5 : get_connector_instance (Val.str "postgres") = .ok .postgres := rfl
  have h6 : get_connector_instance (Val.str "iceberg") = .ok .iceberg := rfl
  rcases hPV : postgres_validate_config src with ⟨pv1, S1⟩
  rw [hPV] at hsv
  simp only at hsv
  subst hsv
  rw [generate_sql]
  simp only [h1, h2, h3, h4, h5, h6, validate_config, hPV, hkv,
    Bool.not_true, Bool.false_eq_true, if_false]
  rfl

/-- C6 witness: the amended theorem at the concrete empty-valued route
and at a concrete job with an empty route list. -/
theorem route_validation_spec_witness :
    validate_route c6route = .ok ()
    ∧ generate_sql c6emptycfg = .error "Route configuration is required" := by
  have h := route_validation_spec
  exact ⟨(h.1 c6route).mpr ⟨rfl, rfl⟩, h.2 c6emptycfg rfl rfl rfl rfl rfl⟩

/-- C7: an iceberg sink configuration carrying a `database` key (or,
failing that, a `database.name` key) is rejected — even with all required
fields present — with an error message that names the offending field. -/
theorem iceberg_forbidden_database_error (c : Dict)
    (hreq1 : hasKey c "connector" = true) (hreq2 : hasKey c "catalog" = true) :
    (hasKey c "database" = true →
       iceberg_validate_config c = .error ("Field 'database' should not be specified in "
         ++ "Iceberg sink config. Database and table names are derived from the "
         ++ "route configuration."))
    ∧ (hasKey c "database" = false → hasKey c "database.name" = true →
       iceberg_validate_config c = .error ("Field 'database.name' should not be specified in "
         ++ "Iceberg sink config. Database and table names are derived from the "
         ++ "route configuration."))
    ∧ strHas ("Field 'database' should not be specified in Iceberg sink config. "
        ++ "Database and table names are derived from the route configuration.")
        "database" = true
    ∧ strHas ("Field 'database.name' should not be specified in Iceberg sink config. "
        ++ "Database and table names are derived from the route configuration.")
        "database.name" = true := by
  have hreq : iceberg_required_check c = .ok () := by
    rw [iceberg_required_check]
    simp [List.find?, hreq1, hreq2]
  refine ⟨?_, ?_, by rfl, by rfl⟩
  · intro hdb
    have hforb : iceberg_forbidden_check c = .error ("Field 'database' should not be "
        ++ "specified in Iceberg sink config. Database and table names are derived "
        ++ "from the route configuration.") := by
      rw [iceberg_forbidden_check]
      simp [List.find?, hdb]
    rw [iceberg_validate_config]
    simp [hreq, hforb, Bind.bind, Except.bind]
  · intro hdb hdbn
    have hforb : iceberg_forbidden_check c = .error ("Field 'database.name' should not be "
        ++ "specified in Iceberg sink config. Database and table names are derived "
        ++ "from the route configuration.") := by
      rw [iceberg_forbidden_check]
      simp [List.find?, hdb, hdbn]
    rw [iceberg_validate_config]
    simp [hreq, hforb, Bind.bind, Except.bind]

/-- C7 witness: the forbidden-field theorem at concrete sinks carrying
`database` and `database.name` alongside all required fields. -/
theorem iceberg_forbidden_database_error_witness :
    iceberg_validate_config c7sink = .error ("Field 'database' should not be specified in "
      ++ "Iceberg sink config. Database and table names are derived from the "
      ++ "route configuration.")
    ∧ iceberg_validate_config c7sinkDotted = .error ("Field 'database.name' should not be "
      ++ "specified in Iceberg sink config. Database and table names are derived from the "
      ++ "route configuration.") := by
  refine ⟨(iceberg_forbidden_database_error c7sink rfl rfl).1 rfl, ?_⟩
  exact (iceberg_forbidden_database_error c7sinkDotted rfl rfl).2.1 rfl rfl

/-- C8: a connector discriminator outside the registry (neither
`postgres` nor `iceberg`) makes connector lookup fail with a message
naming the offending type and listing all supported types, and
`generate_sql` fails with that same error, producing no statement text. -/
theorem unsupported_connector_error (t : String)
    (h1 : t ≠ "postgres") (h2 : t ≠ "iceberg") :
    supportedTypesMsg = "postgres, iceberg"
    ∧ get_connector_instance (.str t)
        = .error ("Unsupported connector type: " ++ t ++ ". Supported types: "
                  ++ supportedTypesMsg)
    ∧ (∀ cfg : JobConfig,
        dget cfg.source "connector" = some (.str t) →
        hasKey cfg.sink "connector" = true →
        generate_sql cfg = .error ("Unsupported connector type: " ++ t
                                   ++ ". Supported types: " ++ supportedTypesMsg)) := by
  have hb1 : (t == "postgres") = false := by simp [h1]
  have hb2 : (t == "iceberg") = false := by simp [h2]
  have hlook : get_connector_instance (.str t)
      = .error ("Unsupported connector type: " ++ t ++ ". Supported types: "
                ++ supportedTypesMsg) := by
    rw [get_connector_instance]
    simp [CONNECTOR_REGISTRY, List.lookup, hb1, hb2]
  refine ⟨rfl, hlook, ?_⟩
  intro cfg hsrc hsink
  obtain ⟨src, snk, rs⟩ := cfg
  simp only at hsrc hsink ⊢
  have hk1 : hasKey src "connector" = true := by rw [hasKey, hsrc]; rfl
  have hd : dgetD src "connector" = Val.str t := by rw [dgetD, hsrc]; rfl
  rw [generate_sql]
  simp only [hk1, hsink, hd, hlook, Bool.not_true, Bool.false_eq_true, if_false]

/-- C8 witness: the registry-closure theorem at the discriminator
`mysql` and a concrete job using it as source connector. -/
theorem unsupported_connector_error_witness :
    get_connector_instance (.str "mysql")
      = .error "Unsupported connector type: mysql. Supported types: postgres, iceberg"
    ∧ generate_sql c8cfg
      = .error "Unsupported connector type: mysql. Supported types: postgres, iceberg" := by
  have h := unsupported_connector_error "mysql" (by decide) (by decide)
  exact ⟨h.2.1, h.2.2 c8cfg rfl rfl⟩

/-- C9 counterexample: on a postgres source with a scalar `database` and
an invalid `slot` block, `validate_config` raises — yet the
caller-supplied configuration has already been mutated: its `database`
entry was normalized to `{name: 'db1'}` before the failing rule ran. -/
theorem postgres_validate_mutation_counterexample :
    (postgres_validate_config c9cfg).1
      = .error "Missing required slot.name field when slot is specified"
    ∧ dget (postgres_validate_config c9cfg).2 "database" = some (.dict [("name", .str "db1")])
    ∧ dget c9cfg "database" = some (.str "db1")
    ∧ (postgres_validate_config c9cfg).2 ≠ c9cfg := by
  refine ⟨rfl, rfl, rfl, ?_⟩
  intro h
  have h1 : dget (postgres_validate_config c9cfg).2 "database"
      = dget c9cfg "database" := by rw [h]
  have h2 : (some (Val.dict [("name", .str "db1")]) : Option Val)
      = some (.str "db1") := h1
  exact Val.noConfusion (Option.some.inj h2)

/-- C9 (amended): the scalar-`database` normalization happens as soon as
the required-field pass and the database-shape check succeed, not only on
a fully successful validation: once reached, the configuration is mutated
(`database` becomes `{name: s}`) whether or not a later rule raises.  If
a required field is missing — so the error is raised before the
normalization point — the configuration is returned unchanged; and on a
successful run a scalar `database` always ends up normalized. -/
theorem postgres_validate_normalization (c : Dict) :
    (∀ s, dget c "database" = some (.str s) →
        hasKey c "connector" = true → hasKey c "hostname" = true →
        hasKey c "port" = true → hasKey c "username" = true →
        hasKey c "password" = true →
        (postgres_validate_config c).2 = dset c "database" (.dict [("name", .str s)]))
    ∧ ((∃ f ∈ ["connector", "hostname", "port", "username", "password", "database"],
          hasKey c f = false) →
        (postgres_validate_config c).2 = c)
    ∧ (∀ s, dget c "database" = some (.str s) → (postgres_validate_config c).1 = .ok () →
        dget (postgres_validate_config c).2 "database"
          = some (.dict [("name", .str s)])) := by
  refine ⟨?_, ?_, ?_⟩
  · intro s hs hc hh hp hu hpw
    have hdb : hasKey c "database" = true := by rw [hasKey, hs]; rfl
    rw [postgres_validate_config]
    simp [List.find?, hc, hh, hp, hu, hpw, hdb, hs]
  · rintro ⟨f, hf, hmiss⟩
    rcases hfind : (["connector", "hostname", "port", "username", "password",
        "database"].find? (fun f => !hasKey c f)) with _ | f0
    · exfalso
      have := List.find?_eq_none.mp hfind f hf
      simp [hmiss] at this
    · rw [postgres_validate_config, hfind]
  · intro s hs hok
    rcases hfind : (["connector", "hostname", "port", "username", "password",
        "database"].find? (fun f => !hasKey c f)) with _ | f0
    · rw [postgres_validate_config, hfind] at hok ⊢
      simp only [hs]
      simp [dget_dset_self]
    · rw [postgres_validate_config, hfind] at hok
      simp at hok

/-- C9 witness: the normalization theorem at the counterexample's
configuration (mutated despite the later failure) and at a configuration
missing required fields (returned unchanged). -/
theorem postgres_validate_normalization_witness :
    (postgres_validate_config c9cfg).2 = dset c9cfg "database" (.dict [("name", .str "db1")])
    ∧ (postgres_validate_config c9missing).2 = c9missing := by
  refine ⟨(postgres_validate_normalization c9cfg).1 "db1" rfl rfl rfl rfl rfl rfl, ?_⟩
  exact (postgres_validate_normalization c9missing).2.1 ⟨"hostname", by simp, rfl⟩

/-- C10: a route whose `sink_table` contains no dot renders without
error: the database name is the empty string and both the sink-name
prefix and the table name are the whole `sink_table` string. -/
theorem iceberg_sink_table_without_dot
    (source sink route : Dict) (t sr : String)
    (ht : dget route "sink_table" = some (.str t))
    (hsr : dget route "source_table" = some (.str sr))
    (hnd : '.' ∉ t.data) :
    lastSeg t = t
    ∧ dbNameOf t = ""
    ∧ iceberg_create_sink source sink route none
        = .ok (renderIcebergSink t (lastSeg sr) "" t none (sinkProps sink route)) := by
  have hrs : routeStr route "sink_table" = t := by rw [routeStr, ht]
  have hrsrc : routeStr route "source_table" = sr := by rw [routeStr, hsr]
  refine ⟨lastSeg_no_dot t hnd, dbNameOf_no_dot t hnd, ?_⟩
  simp [iceberg_create_sink, ht, hsr, iceberg_sink_view, hrs, hrsrc,
        lastSeg_no_dot t hnd, dbNameOf_no_dot t hnd]

/-- C10 witness: the dotless-sink-table theorem at a concrete route
(`sink_table = "orders"`); the rendered statement indeed contains
`database.name = ''` and the bare table name. -/
theorem iceberg_sink_table_without_dot_witness :
    lastSeg "orders" = "orders"
    ∧ dbNameOf "orders" = ""
    ∧ iceberg_create_sink [] c3sink c10route none
        = .ok (renderIcebergSink "orders" (lastSeg "public.orders") "" "orders" none
                (sinkProps c3sink c10route))
    ∧ strHas (renderIcebergSink "orders" (lastSeg "public.orders") "" "orders" none [])
        "database.name = ''" = true
    ∧ strHas (renderIcebergSink "orders" (lastSeg "public.orders") "" "orders" none [])
        "table.name = 'orders'" = true := by
  have h := iceberg_sink_table_without_dot [] c3sink c10route "orders" "public.orders"
    rfl rfl (by decide)
  exact ⟨h.1, h.2.1, h.2.2, rfl, rfl⟩
